import Mathlib

/-!
Shallow embedding of the ddmw-client core protocol layer (Rust) in Lean 4.

Modules embedded, with their source files:
- src/err.rs          : the Error enum.
- src/utils.rs        : read_single_line.
- src/auth.rs         : Auth record, get_pass, get_token, token, accpass,
                        authenticate.
- src/conn.rs         : expect_okfail (and sendrecv, inlined as
                        send-telegram-then-expect_okfail).
- src/msg/send.rs     : InputType, MsgInfo, get_meta_size, get_payload_size,
                        send_content, send.
- src/msg/recv.rs     : StoreType, Storage, Msg, MsgInfo (inbound),
                        get_content, proc_inbound_msg, recv, recvloop.

Modelling conventions:
- The frame codec (external blather library) is modelled at frame
  granularity: a connection's inbound side is a finite list of decoded
  frames (`Frame`); `conn.next()` returning `None` (closed connection) is
  the exhaustion of that list.
- The outbound side of a connection is modelled as the transcript of items
  transmitted (`SentItem`), returned alongside the result so that theorems
  can speak about what was (or was not) transmitted even on error paths.
- The file system is explicit: for the auth module it maps a path to an
  optional list of line-read outcomes (mirroring BufReader::lines, where a
  single line read may fail), plus a writability flag for File::create;
  for the send module it maps a path to an optional byte size (mirroring
  fs::metadata().len()).
- Machine integers are Nat with explicit truncation `% 2^32` / `% 2^64`
  where the Rust code performs an `as` cast.
-/

/-- Key/value parameter map of a telegram (blather::Params).  The Rust type
is a HashMap; the claims only depend on key lookup, so an association list
with first-match lookup is used. -/
def ParamsMap := List (String × String)

instance : DecidableEq ParamsMap := by
  unfold ParamsMap
  infer_instance

/-- Params::get_str - look a key up, returning the value when present. -/
def lookupParam : ParamsMap → String → Option String
  | [], _ => none
  | (k, v) :: rest, key => if k = key then some v else lookupParam rest key

/-- Params::have - whether a key is present. -/
def haveParam (mp : ParamsMap) (key : String) : Bool :=
  (lookupParam mp key).isSome

/-- Telegram envelope (blather::Telegram): an optional topic string plus
parameters. -/
structure Telegram where
  topic : Option String
  params : ParamsMap
deriving DecidableEq

/-- Error values from src/err.rs.  The IO variant is named ioError here;
all other constructor names follow the source. -/
inductive Error where
  | Blather (s : String)
  | ioError (s : String)
  | ServerError (p : ParamsMap)
  | BadState (s : String)
  | Disconnected
  | BadInput (s : String)
  | BadParams (s : String)
  | InvalidCredentials (s : String)
  | MissingData (s : String)
  | Parse (s : String)
  | Figment (s : String)
deriving DecidableEq

/-- Error::invalid_cred helper from src/err.rs. -/
def Error.invalid_cred (e : String) : Error := Error.InvalidCredentials e

/-- Error::bad_state helper from src/err.rs. -/
def Error.bad_state (e : String) : Error := Error.BadState e

/-- Decoded frames produced by the blather codec (codec::Input variants
used by this crate): a telegram, raw byte buffers, parsed parameters,
parsed key/value lines, a completed file write, or skip completion. -/
inductive Frame where
  | telegram (tg : Telegram)
  | bytes (data : List Nat)
  | bytesMut (data : List Nat)
  | paramsIn (p : ParamsMap)
  | kvlines (lines : List (String × String))
  | file (path : String)
  | skipDone
deriving DecidableEq

/-- Waits for one frame and requires it to be an Ok or Fail telegram
(expect_okfail in src/conn.rs).  An Ok yields the reply parameters, a Fail
yields Error::ServerError, any other telegram topic or a non-telegram
frame yields Error::BadState, and an exhausted stream (closed connection)
yields Error::Disconnected.  Returns the remaining inbound frames. -/
def expectOkfail : List Frame → (Except Error ParamsMap) × List Frame
  | [] => (Except.error Error.Disconnected, [])
  | f :: rest =>
    match f with
    | Frame.telegram tg =>
      match tg.topic with
      | some t =>
        if t = "Ok" then (Except.ok tg.params, rest)
        else if t = "Fail" then (Except.error (Error.ServerError tg.params), rest)
        else (Except.error (Error.bad_state "Unexpected reply from server."), rest)
      | none => (Except.error (Error.bad_state "Unexpected reply from server."), rest)
    | _ => (Except.error (Error.bad_state "Unexpected reply from server."), rest)

/-!  The auth module (src/auth.rs) and its file-reading helper
(src/utils.rs).  -/

/-- Outcome of reading one line via BufReader::lines: either an I/O error
or the line's text. -/
def LineRead := Except Unit String

instance : DecidableEq LineRead := by
  unfold LineRead
  intro a b
  cases a <;> cases b
  case error.error u v => exact isTrue (by cases u; cases v; rfl)
  case error.ok u s => exact isFalse Except.noConfusion
  case ok.error s u => exact isFalse Except.noConfusion
  case ok.ok s t =>
    exact decidable_of_iff (s = t) (by constructor <;> intro h <;> simp_all)

/-- File system as seen by the auth module: a path maps to `none` when the
file does not exist (or cannot be opened) and to its list of line-read
outcomes otherwise; `writable` tells whether File::create succeeds at a
path. -/
structure FileSys where
  files : String → Option (List LineRead)
  writable : String → Bool

/-- Remove all trailing whitespace characters (str::trim_end). -/
def trimEnd (s : String) : String :=
  String.mk ((s.data.reverse.dropWhile Char.isWhitespace).reverse)

/-- read_single_line from src/utils.rs: `none` when the file cannot be
opened, has no lines, or its first line read fails; otherwise the first
line with trailing whitespace removed. -/
def readSingleLine (fs : FileSys) (fname : String) : Option String :=
  match fs.files fname with
  | none => none
  | some [] => none
  | some (Except.error _ :: _) => none
  | some (Except.ok l :: _) => some (trimEnd l)

/-- Authentication context (struct Auth in src/auth.rs). -/
structure Auth where
  name : Option String
  pass_file : Option String
  pass : Option String
  token_file : Option String
  token : Option String
deriving DecidableEq

/-- Auth::get_pass: the inline pass when set, else the first line of the
pass file, else an InvalidCredentials error. -/
def Auth.get_pass (a : Auth) (fs : FileSys) : Except Error String :=
  match a.pass with
  | some pass => Except.ok pass
  | none =>
    match a.pass_file with
    | some fname =>
      match readSingleLine fs fname with
      | some pass => Except.ok pass
      | none =>
        Except.error (Error.invalid_cred "Unable to read passphrase from file")
    | none => Except.error (Error.invalid_cred "Missing passphrase")

/-- Auth::get_token: the inline token when set; else, when a token file is
configured: read it when it exists (error when unreadable), and when it
does not exist fall through to `ok none` only when an account name and
some passphrase source are configured, otherwise fail. -/
def Auth.get_token (a : Auth) (fs : FileSys) : Except Error (Option String) :=
  match a.token with
  | some tkn => Except.ok (some tkn)
  | none =>
    match a.token_file with
    | some fname =>
      if (fs.files fname).isSome then
        match readSingleLine fs fname with
        | some tkn => Except.ok (some tkn)
        | none =>
          Except.error (Error.invalid_cred "Unable to read token from file")
      else if a.name.isNone then
        Except.error (Error.invalid_cred "Unable to read token from file")
      else if a.pass.isNone && a.pass_file.isNone then
        Except.error (Error.invalid_cred "Missing passphrase for token request")
      else
        Except.ok none
    | none => Except.ok none

/-- Credential location (enum CredStore in src/auth.rs). -/
inductive CredStore where
  | buf (s : String)
  | file (p : String)

/-- Resolve a CredStore to a token string, as done at the top of the
free function `token` in src/auth.rs. -/
def resolveTokenCred (fs : FileSys) : CredStore → Except Error String
  | CredStore.buf s => Except.ok s
  | CredStore.file p =>
    match readSingleLine fs p with
    | some t => Except.ok t
    | none => Except.error (Error.invalid_cred "Unable to read token from file")

/-- The free function `token` in src/auth.rs: authenticate with a token.
Returns the result together with the telegrams sent on the connection. -/
def tokenAuth (fs : FileSys) (cred : CredStore) (inbound : List Frame) :
    (Except Error Unit) × List Telegram :=
  match resolveTokenCred fs cred with
  | Except.error e => (Except.error e, [])
  | Except.ok tkn =>
    let tg : Telegram := { topic := some "Auth", params := [("Tkn", tkn)] }
    match (expectOkfail inbound).1 with
    | Except.error e => (Except.error e, [tg])
    | Except.ok _ => (Except.ok (), [tg])

/-- Resolve a CredStore to a passphrase string, as done inside `accpass`
in src/auth.rs. -/
def resolvePassCred (fs : FileSys) : CredStore → Except Error String
  | CredStore.buf s => Except.ok s
  | CredStore.file p =>
    match readSingleLine fs p with
    | some pass => Except.ok pass
    | none =>
      Except.error (Error.invalid_cred "Unable to read passphrase from file")

/-- The free function `accpass` in src/auth.rs: authenticate with an
account name and passphrase, optionally requesting a token.  Returns the
optional issued token together with the telegrams sent. -/
def accpass (fs : FileSys) (accname : String) (pass : CredStore)
    (reqtkn : Bool) (inbound : List Frame) :
    (Except Error (Option String)) × List Telegram :=
  match resolvePassCred fs pass with
  | Except.error e => (Except.error e, [])
  | Except.ok pw =>
    let tg : Telegram :=
      { topic := some "Auth"
        params := [("AccName", accname), ("Pass", pw)] ++
          (if reqtkn then [("ReqTkn", "True")] else []) }
    match (expectOkfail inbound).1 with
    | Except.error e => (Except.error e, [tg])
    | Except.ok params =>
      if reqtkn then
        match lookupParam params "Tkn" with
        | some s => (Except.ok (some s), [tg])
        | none => (Except.ok none, [tg])
      else (Except.ok none, [tg])

/-- Overwrite a file with a single line (File::create + write of the token
bytes in Auth::authenticate). -/
def writeSingleLine (fs : FileSys) (fname : String) (content : String) :
    FileSys :=
  { fs with
    files := fun p =>
      if p = fname then some [Except.ok content] else fs.files p }

/-- Auth::authenticate from src/auth.rs.  Returns the result (an optional
newly issued token), the telegrams sent on the connection, and the file
system after any token-file write. -/
def Auth.authenticate (a : Auth) (fs : FileSys) (inbound : List Frame) :
    (Except Error (Option String)) × List Telegram × FileSys :=
  match a.get_token fs with
  | Except.error e => (Except.error e, [], fs)
  | Except.ok (some tkn) =>
    match tokenAuth fs (CredStore.buf tkn) inbound with
    | (Except.error e, sent) => (Except.error e, sent, fs)
    | (Except.ok _, sent) => (Except.ok none, sent, fs)
  | Except.ok none =>
    match a.name with
    | some accname =>
      match a.get_pass fs with
      | Except.error e => (Except.error e, [], fs)
      | Except.ok pass =>
        match accpass fs accname (CredStore.buf pass)
            a.token_file.isSome inbound with
        | (Except.error e, sent) => (Except.error e, sent, fs)
        | (Except.ok (some tkn), sent) =>
          match a.token_file with
          | some fname =>
            if fs.writable fname then
              (Except.ok (some tkn), sent, writeSingleLine fs fname tkn)
            else
              (Except.error (Error.ioError "failed to create token file"),
               sent, fs)
          | none => (Except.ok (some tkn), sent, fs)
        | (Except.ok none, sent) => (Except.ok none, sent, fs)
    | none => (Except.error (Error.invalid_cred "Missing credentials"), [], fs)

/-!  The outbound transfer module (src/msg/send.rs).  -/

/-- Application channel (enum AppChannel in src/types.rs). -/
inductive AppChannel where
  | num (ch : Nat)
  | name (ch : String)
deriving DecidableEq

/-- Display rendering of an AppChannel (impl fmt::Display in
src/types.rs). -/
def AppChannel.render : AppChannel → String
  | AppChannel.num ch => toString ch
  | AppChannel.name ch => ch

/-- Content of one outbound section (enum InputType in src/msg/send.rs):
parsed parameters, a file reference, an owned byte vector, or a borrowed
byte buffer. -/
inductive InputType where
  | params (p : ParamsMap)
  | file (path : String)
  | vecBuf (v : List Nat)
  | bytes (b : List Nat)
deriving DecidableEq

/-- Serialized size of a Params buffer (blather's Params::calc_buf_size,
external to this repository: each entry is rendered as key, space, value
and a newline). -/
def calcBufSize (p : ParamsMap) : Nat :=
  p.foldl (fun acc kv => acc + kv.1.length + kv.2.length + 2) 0

/-- File system as seen by the send module: a path maps to its byte size,
or to `none` when the file does not exist (fs::metadata fails). -/
def SizeFS := String → Option Nat

/-- InputType::get_size from src/msg/send.rs.  For a file the size comes
from fs::metadata, whose failure is an I/O error. -/
def InputType.get_size (fs : SizeFS) : InputType → Except Error Nat
  | InputType.params p => Except.ok (calcBufSize p)
  | InputType.file f =>
    match fs f with
    | some n => Except.ok n
    | none => Except.error (Error.ioError "No such file or directory")
  | InputType.vecBuf v => Except.ok v.length
  | InputType.bytes b => Except.ok b.length

/-- Outbound transfer descriptor (struct MsgInfo in src/msg/send.rs). -/
structure MsgInfo where
  cmd : Nat
  meta : Option InputType
  payload : Option InputType

/-- MsgInfo::get_meta_size from src/msg/send.rs: size of the metadata (0
when absent).  The source compares the size against u32::MAX but the
oversize branch is empty (a ToDo), so the value is returned cast to u32,
i.e. truncated modulo 2^32. -/
def MsgInfo.get_meta_size (mi : MsgInfo) (fs : SizeFS) : Except Error Nat :=
  match (match mi.meta with
         | some meta => meta.get_size fs
         | none => Except.ok 0) with
  | Except.error e => Except.error e
  | Except.ok sz => Except.ok (sz % 2 ^ 32)

/-- MsgInfo::get_payload_size from src/msg/send.rs: size of the payload (0
when absent), cast to u64. -/
def MsgInfo.get_payload_size (mi : MsgInfo) (fs : SizeFS) : Except Error Nat :=
  match (match mi.payload with
         | some payload => payload.get_size fs
         | none => Except.ok 0) with
  | Except.error e => Except.error e
  | Except.ok sz => Except.ok (sz % 2 ^ 64)

/-- One item transmitted on a connection: a telegram, or one raw content
frame (the content transmitted by send_content, recorded with its
source). -/
inductive SentItem where
  | telegram (tg : Telegram)
  | content (data : InputType)
deriving DecidableEq

/-- send_content from src/msg/send.rs, abstracted to the frame it
transmits: params and in-memory buffers are sent as-is; a file is opened
(an absent file is an I/O error) and streamed. -/
def sendContentFrame (fs : SizeFS) (data : InputType) :
    Except Error InputType :=
  match data with
  | InputType.file f =>
    match fs f with
    | some _ => Except.ok (InputType.file f)
    | none => Except.error (Error.ioError "No such file or directory")
  | d => Except.ok d

/-- The Msg control telegram built by send in src/msg/send.rs: the channel
always, the command id when non-zero, and each declared length when
non-zero. -/
def mkMsgTelegram (ch : AppChannel) (cmd metalen payloadlen : Nat) :
    Telegram :=
  { topic := some "Msg"
    params :=
      [("_Ch", ch.render)] ++
      (if cmd ≠ 0 then [("Cmd", toString cmd)] else []) ++
      (if metalen ≠ 0 then [("MetaLen", toString metalen)] else []) ++
      (if payloadlen ≠ 0 then [("Len", toString payloadlen)] else []) }

/-- One optional section of the transfer, as performed by send: when
present, transmit the content frame and await an Ok/Fail acknowledgement.
Threads the transcript of sent items and the inbound frames. -/
def sendSection (fs : SizeFS) (sec : Option InputType)
    (sent : List SentItem) (inbound : List Frame) :
    (Except Error Unit) × List SentItem × List Frame :=
  match sec with
  | none => (Except.ok (), sent, inbound)
  | some data =>
    match sendContentFrame fs data with
    | Except.error e => (Except.error e, sent, inbound)
    | Except.ok fr =>
      let sent := sent ++ [SentItem.content fr]
      let (r, inbound) := expectOkfail inbound
      match r with
      | Except.error e => (Except.error e, sent, inbound)
      | Except.ok _ => (Except.ok (), sent, inbound)

/-- send from src/msg/send.rs.  Computes the section sizes, sends the Msg
control telegram, awaits Ok/Fail, requires the XferId in the Ok reply
(its absence is Error::MissingData), then transmits and awaits an
acknowledgement for the metadata section and then the payload section.
Returns the result, the transcript of transmitted items, and the
remaining inbound frames. -/
def send (fs : SizeFS) (ch : AppChannel) (mi : MsgInfo)
    (inbound : List Frame) :
    (Except Error String) × List SentItem × List Frame :=
  match mi.get_meta_size fs with
  | Except.error e => (Except.error e, [], inbound)
  | Except.ok metalen =>
  match mi.get_payload_size fs with
  | Except.error e => (Except.error e, [], inbound)
  | Except.ok payloadlen =>
  let tg := mkMsgTelegram ch mi.cmd metalen payloadlen
  let sent := [SentItem.telegram tg]
  match expectOkfail inbound with
  | (Except.error e, inbound) => (Except.error e, sent, inbound)
  | (Except.ok params, inbound) =>
  match lookupParam params "XferId" with
  | none =>
    (Except.error (Error.MissingData
      "Missing expected transfer identifier from server reply"),
     sent, inbound)
  | some xferid =>
  match sendSection fs mi.meta sent inbound with
  | (Except.error e, sent, inbound) => (Except.error e, sent, inbound)
  | (Except.ok _, sent, inbound) =>
  match sendSection fs mi.payload sent inbound with
  | (Except.error e, sent, inbound) => (Except.error e, sent, inbound)
  | (Except.ok _, sent, inbound) => (Except.ok xferid, sent, inbound)

/-!  The inbound transfer module (src/msg/recv.rs).  -/

/-- Requested storage kind for one inbound section (enum StoreType in
src/msg/recv.rs). -/
inductive StoreType where
  | none
  | bytes
  | bytesMut
  | params
  | kvLines
  | file (path : String)
deriving DecidableEq

/-- Materialized content of one inbound section (enum Storage in
src/msg/recv.rs). -/
inductive Storage where
  | bytes (data : List Nat)
  | bytesMut (data : List Nat)
  | params (p : ParamsMap)
  | kvlines (lines : List (String × String))
  | file (path : String)
  | localFile (path : String)
deriving DecidableEq

/-- A received message (struct Msg in src/msg/recv.rs). -/
structure Msg where
  cmd : Nat
  meta : Option Storage
  payload : Option Storage
deriving DecidableEq

/-- Declared message information passed to the storage-request callback
(struct MsgInfo in src/msg/recv.rs; named RecvMsgInfo here to keep it
distinct from the outbound MsgInfo). -/
structure RecvMsgInfo where
  cmd : Nat
  metalen : Nat
  payloadlen : Nat

/-- Parse a decimal natural number (str::parse at the heart of blather's
Params::get_param): all characters must be digits and the string must be
nonempty. -/
def parseNat (s : String) : Option Nat :=
  if s.data ≠ [] && s.data.all Char.isDigit then
    some (s.data.foldl (fun a c => a * 10 + (c.toNat - 48)) 0)
  else
    Option.none

/-- Params::get_param for an unsigned integer type with exclusive upper
bound `bound` (2^32 for u32, 2^64 for u64): a missing key or an
unparsable or out-of-range value is a blather-layer error. -/
def getParamNat (mp : ParamsMap) (key : String) (bound : Nat) :
    Except Error Nat :=
  match lookupParam mp key with
  | some v =>
    match parseNat v with
    | some n =>
      if n < bound then Except.ok n
      else Except.error (Error.Blather "parameter parse failed")
    | Option.none => Except.error (Error.Blather "parameter parse failed")
  | Option.none => Except.error (Error.Blather "parameter not found")

/-- Declared metadata length in proc_inbound_msg: the MetaLen parameter as
u32 when present, else 0. -/
def metaLenOf (mp : ParamsMap) : Except Error Nat :=
  if haveParam mp "MetaLen" then getParamNat mp "MetaLen" (2 ^ 32)
  else Except.ok 0

/-- Declared payload length in proc_inbound_msg: the Len parameter as u64
when present, else 0. -/
def payloadLenOf (mp : ParamsMap) : Except Error Nat :=
  if haveParam mp "Len" then getParamNat mp "Len" (2 ^ 64)
  else Except.ok 0

/-- Command id in proc_inbound_msg: the Cmd parameter as u32 when present,
else 0. -/
def cmdOf (mp : ParamsMap) : Except Error Nat :=
  if haveParam mp "Cmd" then getParamNat mp "Cmd" (2 ^ 32)
  else Except.ok 0

/-- get_content from src/msg/recv.rs: translate the next inbound frame
into an optional Storage.  Skip completion yields `none`, content frames
yield their Storage variant, a telegram is a protocol violation, and an
exhausted stream is a disconnection.  Returns the remaining frames. -/
def getContent : List Frame → Except Error (Option Storage × List Frame)
  | [] => Except.error Error.Disconnected
  | f :: rest =>
    match f with
    | Frame.skipDone => Except.ok (Option.none, rest)
    | Frame.bytes b => Except.ok (some (Storage.bytes b), rest)
    | Frame.bytesMut b => Except.ok (some (Storage.bytesMut b), rest)
    | Frame.paramsIn p => Except.ok (some (Storage.params p), rest)
    | Frame.kvlines l => Except.ok (some (Storage.kvlines l), rest)
    | Frame.file p => Except.ok (some (Storage.file p), rest)
    | Frame.telegram _ =>
      Except.error (Error.bad_state "Unexpected codec input type.")

/-- One section read in proc_inbound_msg: when a storage request was
retained for the section, the codec is configured accordingly and one
content frame is read via get_content; otherwise the section is skipped
and yields `none`. -/
def readSection (opt : Option StoreType) (frames : List Frame) :
    Except Error (Option Storage × List Frame) :=
  match opt with
  | some _ => getContent frames
  | Option.none => Except.ok (Option.none, frames)

/-- proc_inbound_msg from src/msg/recv.rs.  Parses the declared lengths
and command id, invokes the storage-request callback once when either
declared length is non-zero, retains each requested kind only when the
METADATA length is non-zero (the source tests `metalen != 0` for both
sections), reads one content frame per retained section, and assembles
the Msg. -/
def procInboundMsg
    (storeq : RecvMsgInfo → Except Error (StoreType × StoreType))
    (mp : ParamsMap) (frames : List Frame) :
    Except Error (Msg × List Frame) :=
  match metaLenOf mp with
  | Except.error e => Except.error e
  | Except.ok metalen =>
  match payloadLenOf mp with
  | Except.error e => Except.error e
  | Except.ok payloadlen =>
  match cmdOf mp with
  | Except.error e => Except.error e
  | Except.ok cmd =>
  match (if metalen ≠ 0 ∨ payloadlen ≠ 0 then
           match storeq { cmd := cmd, metalen := metalen,
                          payloadlen := payloadlen } with
           | Except.error e => Except.error e
           | Except.ok (ms, ps) =>
             Except.ok
               (if metalen ≠ 0 then some ms else Option.none,
                if metalen ≠ 0 then some ps else Option.none)
         else
           Except.ok (Option.none, Option.none)) with
  | Except.error e => Except.error e
  | Except.ok (msOpt, psOpt) =>
  match readSection msOpt frames with
  | Except.error e => Except.error e
  | Except.ok (meta, frames1) =>
  match readSection psOpt frames1 with
  | Except.error e => Except.error e
  | Except.ok (payload, frames2) =>
    Except.ok ({ cmd := cmd, meta := meta, payload := payload }, frames2)

/-- recv from src/msg/recv.rs.  Awaits one frame and requires it to be a
telegram: a Msg topic is processed by proc_inbound_msg, a Fail topic is a
server error, any other or missing topic is a bad state, a non-telegram
frame is a bad state, and an exhausted stream is a disconnection. -/
def recv (storeq : RecvMsgInfo → Except Error (StoreType × StoreType)) :
    List Frame → Except Error (Msg × List Frame)
  | [] => Except.error Error.Disconnected
  | f :: rest =>
    match f with
    | Frame.telegram tg =>
      match tg.topic with
      | some t =>
        if t = "Msg" then procInboundMsg storeq tg.params rest
        else if t = "Fail" then Except.error (Error.ServerError tg.params)
        else Except.error (Error.bad_state "Unexpected reply from server.")
      | Option.none =>
        Except.error (Error.bad_state "Unexpected reply from server.")
    | _ => Except.error (Error.BadState "Unexpected codec input type.")

/-- get_content consumes exactly one frame when it succeeds. -/
theorem getContent_length {frames : List Frame} {o : Option Storage}
    {rest : List Frame} (h : getContent frames = Except.ok (o, rest)) :
    rest.length < frames.length := by
  cases frames with
  | nil => simp [getContent] at h
  | cons f tail =>
    cases f <;> simp_all [getContent]

/-- readSection does not lengthen the frame stream. -/
theorem readSection_length {opt : Option StoreType} {frames : List Frame}
    {o : Option Storage} {rest : List Frame}
    (h : readSection opt frames = Except.ok (o, rest)) :
    rest.length ≤ frames.length := by
  cases opt with
  | none => simp_all [readSection]
  | some st =>
    simp only [readSection] at h
    exact Nat.le_of_lt (getContent_length h)

/-- proc_inbound_msg does not lengthen the frame stream. -/
theorem procInboundMsg_length
    {storeq : RecvMsgInfo → Except Error (StoreType × StoreType)}
    {mp : ParamsMap} {frames : List Frame} {m : Msg} {rest : List Frame}
    (h : procInboundMsg storeq mp frames = Except.ok (m, rest)) :
    rest.length ≤ frames.length := by
  unfold procInboundMsg at h
  split at h <;> try simp_all
  split at h <;> try simp_all
  split at h <;> try simp_all
  split at h <;> try simp_all
  split at h <;> try simp_all
  rename_i hsec1
  split at h <;> try simp_all
  rename_i hsec2
  exact Nat.le_trans (readSection_length hsec2) (readSection_length hsec1)

/-- recv consumes at least one frame when it succeeds. -/
theorem recv_length
    {storeq : RecvMsgInfo → Except Error (StoreType × StoreType)}
    {frames : List Frame} {m : Msg} {rest : List Frame}
    (h : recv storeq frames = Except.ok (m, rest)) :
    rest.length < frames.length := by
  cases frames with
  | nil => simp [recv] at h
  | cons f tail =>
    simp only [recv] at h
    split at h <;> try simp_all
    split at h <;> try simp_all
    split at h
    · have hle := procInboundMsg_length h
      refine Nat.lt_of_le_of_lt hle ?_
      simp
    · split at h <;> simp_all

/-- The kill = None branch of recvloop from src/msg/recv.rs: keep calling
recv and handing each message to the processing callback; any error from
either propagates immediately.  The loop body has no break, so the
trailing Ok(()) of the source is unreachable in this branch; on a finite
inbound stream the recursion terminates because recv always consumes at
least one frame. -/
def recvloopNoKill
    (storeq : RecvMsgInfo → Except Error (StoreType × StoreType))
    (procmsg : Msg → Except Error Unit) (frames : List Frame) :
    Except Error Unit :=
  match hr : recv storeq frames with
  | Except.error e => Except.error e
  | Except.ok (m, rest) =>
    match procmsg m with
    | Except.error e => Except.error e
    | Except.ok _ => recvloopNoKill storeq procmsg rest
termination_by frames.length
decreasing_by exact recv_length hr

/-- Dropping a prefix cannot lengthen a list. -/
theorem lengthDropWhileLe (p : Char → Bool) (l : List Char) :
    (l.dropWhile p).length ≤ l.length := by
  induction l with
  | nil => simp
  | cons a t ih =>
    by_cases h : p a <;> simp [List.dropWhile, h] <;> omega

/-- A line ending in a whitespace character is changed by trimEnd. -/
theorem trimEnd_push_ne (l : String) (c : Char)
    (hc : c.isWhitespace = true) : trimEnd (l.push c) ≠ l.push c := by
  intro heq
  have hdata : ((l.data ++ [c]).reverse.dropWhile Char.isWhitespace).reverse
      = l.data ++ [c] := congrArg String.data heq
  have h2 : (l.data ++ [c]).reverse = c :: l.data.reverse := by simp
  rw [h2, List.dropWhile_cons_of_pos hc] at hdata
  have hlen := congrArg List.length hdata
  have hle := lengthDropWhileLe Char.isWhitespace l.data.reverse
  simp only [List.length_reverse, List.length_append, List.length_cons,
    List.length_nil] at hlen hle
  omega

/-- Claim C10: a file-backed secret (token or passphrase) resolves to the
file's first line with all trailing whitespace removed, so a stored value
ending in whitespace is never resolved verbatim; a file with no lines or
whose first line read fails resolves to `none`, which get_pass and
get_token surface as an InvalidCredentials error. -/
theorem fileBackedSecretResolution :
    (∀ (fs : FileSys) (p l : String) (rest : List LineRead),
      fs.files p = some (Except.ok l :: rest) →
      readSingleLine fs p = some (trimEnd l))
    ∧ (∀ (l : String) (c : Char), c.isWhitespace = true →
        trimEnd (l.push c) ≠ l.push c)
    ∧ (∀ (fs : FileSys) (p : String), fs.files p = some [] →
        readSingleLine fs p = Option.none)
    ∧ (∀ (fs : FileSys) (p : String) (u : Unit) (rest : List LineRead),
        fs.files p = some (Except.error u :: rest) →
        readSingleLine fs p = Option.none)
    ∧ (∀ (fs : FileSys) (a : Auth) (p : String),
        a.pass = Option.none → a.pass_file = some p →
        readSingleLine fs p = Option.none →
        a.get_pass fs = Except.error
          (Error.InvalidCredentials "Unable to read passphrase from file"))
    ∧ (∀ (fs : FileSys) (a : Auth) (p : String),
        a.token = Option.none → a.token_file = some p →
        (fs.files p).isSome = true →
        readSingleLine fs p = Option.none →
        a.get_token fs = Except.error
          (Error.InvalidCredentials "Unable to read token from file")) := by
  refine ⟨?_, trimEnd_push_ne, ?_, ?_, ?_, ?_⟩
  · intro fs p l rest h
    simp [readSingleLine, h]
  · intro fs p h
    simp [readSingleLine, h]
  · intro fs p u rest h
    simp [readSingleLine, h]
  · intro fs a p hp hpf hr
    simp [Auth.get_pass, hp, hpf, hr, Error.invalid_cred]
  · intro fs a p ht htf hex hr
    simp [Auth.get_token, ht, htf, hex, hr, Error.invalid_cred]

/-- Witness for fileBackedSecretResolution at concrete inputs: a file whose
first line is a token followed by a space resolves to the token without
the space, differs from the stored value, and degenerate files yield the
InvalidCredentials errors. -/
theorem fileBackedSecretResolution_witness :
    readSingleLine
      { files := fun p =>
          if p = "tok" then some [Except.ok "ABC123 "] else Option.none
        writable := fun _ => false } "tok" = some "ABC123"
    ∧ trimEnd "ABC123 " ≠ "ABC123 "
    ∧ readSingleLine
        { files := fun p => if p = "e" then some [] else Option.none
          writable := fun _ => false } "e" = Option.none
    ∧ Auth.get_pass
        { name := Option.none, pass_file := some "e", pass := Option.none,
          token_file := Option.none, token := Option.none }
        { files := fun p => if p = "e" then some [] else Option.none
          writable := fun _ => false }
      = Except.error
          (Error.InvalidCredentials "Unable to read passphrase from file")
    ∧ Auth.get_token
        { name := Option.none, pass_file := Option.none, pass := Option.none,
          token_file := some "e", token := Option.none }
        { files := fun p => if p = "e" then some [] else Option.none
          writable := fun _ => false }
      = Except.error
          (Error.InvalidCredentials "Unable to read token from file") := by
  refine ⟨?_, ?_, ?_, ?_, ?_⟩
  · have h := fileBackedSecretResolution.1
      { files := fun p =>
          if p = "tok" then some [Except.ok "ABC123 "] else Option.none
        writable := fun _ => false } "tok" "ABC123 " [] (by simp)
    rw [h]
    rfl
  · exact fileBackedSecretResolution.2.1 "ABC123" ' ' (by decide)
  · exact fileBackedSecretResolution.2.2.1
      { files := fun p => if p = "e" then some [] else Option.none
        writable := fun _ => false } "e" (by simp)
  · exact fileBackedSecretResolution.2.2.2.2.1
      { files := fun p => if p = "e" then some [] else Option.none
        writable := fun _ => false }
      { name := Option.none, pass_file := some "e", pass := Option.none,
        token_file := Option.none, token := Option.none }
      "e" rfl rfl (by simp [readSingleLine])
  · exact fileBackedSecretResolution.2.2.2.2.2
      { files := fun p => if p = "e" then some [] else Option.none
        writable := fun _ => false }
      { name := Option.none, pass_file := Option.none, pass := Option.none,
        token_file := some "e", token := Option.none }
      "e" rfl rfl (by simp) (by simp [readSingleLine])

/-- Claim C3: with an inline token configured, get_token resolves to it for
every file system state (so the token file is never consulted), and
authenticate sends exactly one Auth request carrying that token, leaves
the file system untouched, and its result does not depend on the file
system at all. -/
theorem inlineTokenPriority (a : Auth) (t : String) (fs : FileSys)
    (inbound : List Frame) (h : a.token = some t) :
    a.get_token fs = Except.ok (some t)
    ∧ (a.authenticate fs inbound).2.1 =
        [{ topic := some "Auth", params := [("Tkn", t)] }]
    ∧ (a.authenticate fs inbound).2.2 = fs
    ∧ (a.authenticate fs inbound).1 =
        (a.authenticate
          { files := fun _ => Option.none, writable := fun _ => false }
          inbound).1 := by
  have hg : ∀ fs2 : FileSys, a.get_token fs2 = Except.ok (some t) := by
    intro fs2
    simp [Auth.get_token, h]
  refine ⟨hg fs, ?_, ?_, ?_⟩ <;>
    (unfold Auth.authenticate
     simp only [hg]
     unfold tokenAuth resolveTokenCred
     cases hr : (expectOkfail inbound).1 <;> simp [hr])

/-- Empty file system: no files exist, every path is writable. -/
def fsEmpty : FileSys :=
  { files := fun _ => Option.none
    writable := fun _ => true }

/-- File system with a single file at path `p` holding the given line-read
outcomes; every path is writable. -/
def fsWith (p : String) (content : List LineRead) : FileSys :=
  { files := fun q => if q = p then some content else Option.none
    writable := fun _ => true }

/-- File system with a single file at `p`, with no path writable. -/
def fsWithRO (p : String) (content : List LineRead) : FileSys :=
  { files := fun q => if q = p then some content else Option.none
    writable := fun _ => false }

/-- Auth record literal helper (fields in source order). -/
def mkAuth (name pass_file pass token_file token : Option String) : Auth :=
  { name := name, pass_file := pass_file, pass := pass,
    token_file := token_file, token := token }

/-- An Ok reply telegram frame with the given parameters. -/
def okTelegram (ps : ParamsMap) : Frame :=
  Frame.telegram { topic := some "Ok", params := ps }

/-- A Fail reply telegram frame with the given parameters. -/
def failTelegram (ps : ParamsMap) : Frame :=
  Frame.telegram { topic := some "Fail", params := ps }

/-- Witness for inlineTokenPriority: an Auth record carrying both an
inline token and a token file whose stored token differs; the inline one
is used and the Auth request carries it. -/
theorem inlineTokenPriority_witness :
    (mkAuth Option.none Option.none Option.none (some "tf")
        (some "T1")).get_token
      (fsWith "tf" [Except.ok "OTHER"]) = Except.ok (some "T1")
    ∧ ((mkAuth Option.none Option.none Option.none (some "tf")
        (some "T1")).authenticate
        (fsWith "tf" [Except.ok "OTHER"]) [okTelegram []]).2.1 =
        [{ topic := some "Auth", params := [("Tkn", "T1")] }] :=
  ⟨(inlineTokenPriority
      (mkAuth Option.none Option.none Option.none (some "tf") (some "T1"))
      "T1" (fsWith "tf" [Except.ok "OTHER"]) [okTelegram []] rfl).1,
   (inlineTokenPriority
      (mkAuth Option.none Option.none Option.none (some "tf") (some "T1"))
      "T1" (fsWith "tf" [Except.ok "OTHER"]) [okTelegram []] rfl).2.1⟩

/-- Claim C4: with no inline token, a configured token file that does not
exist, and no complete account fallback (no account name, or no
passphrase source), authenticate fails with an InvalidCredentials error
and sends nothing on the connection, leaving the file system untouched. -/
theorem missingTokenFileFailsEarly (a : Auth) (f : String) (fs : FileSys)
    (inbound : List Frame)
    (ht : a.token = Option.none) (htf : a.token_file = some f)
    (hex : fs.files f = Option.none)
    (hcred : a.name = Option.none ∨
      (a.pass = Option.none ∧ a.pass_file = Option.none)) :
    (∃ s, (a.authenticate fs inbound).1 =
      Except.error (Error.InvalidCredentials s))
    ∧ (a.authenticate fs inbound).2.1 = []
    ∧ (a.authenticate fs inbound).2.2 = fs := by
  have hg : ∃ s, a.get_token fs =
      Except.error (Error.InvalidCredentials s) := by
    rcases hcred with hn | ⟨hp, hpf⟩
    · exact ⟨"Unable to read token from file", by
        simp [Auth.get_token, ht, htf, hex, hn, Error.invalid_cred]⟩
    · cases hname : a.name with
      | none =>
        exact ⟨"Unable to read token from file", by
          simp [Auth.get_token, ht, htf, hex, hname, Error.invalid_cred]⟩
      | some nm =>
        exact ⟨"Missing passphrase for token request", by
          simp [Auth.get_token, ht, htf, hex, hname, hp, hpf,
            Error.invalid_cred]⟩
  obtain ⟨s, hg⟩ := hg
  refine ⟨⟨s, ?_⟩, ?_, ?_⟩ <;>
    (unfold Auth.authenticate
     rw [hg])

/-- Witness for missingTokenFileFailsEarly: a record with only a token
file configured, over an empty file system; nothing is sent and the
result is an InvalidCredentials error. -/
theorem missingTokenFileFailsEarly_witness :
    (∃ s, ((mkAuth Option.none Option.none Option.none (some "tf")
        Option.none).authenticate fsEmpty [okTelegram []]).1 =
      Except.error (Error.InvalidCredentials s))
    ∧ ((mkAuth Option.none Option.none Option.none (some "tf")
        Option.none).authenticate fsEmpty [okTelegram []]).2.1 = [] :=
  ⟨(missingTokenFileFailsEarly
      (mkAuth Option.none Option.none Option.none (some "tf") Option.none)
      "tf" fsEmpty [okTelegram []] rfl rfl rfl (Or.inl rfl)).1,
   (missingTokenFileFailsEarly
      (mkAuth Option.none Option.none Option.none (some "tf") Option.none)
      "tf" fsEmpty [okTelegram []] rfl rfl rfl (Or.inl rfl)).2.1⟩

/-- A successful get_pass implies some passphrase source is configured. -/
theorem getPass_ok_source (a : Auth) (fs : FileSys) (pw : String)
    (h : a.get_pass fs = Except.ok pw) :
    a.pass.isSome = true ∨ a.pass_file.isSome = true := by
  unfold Auth.get_pass at h
  cases hp : a.pass with
  | some x => exact Or.inl (by simp [hp])
  | none =>
    cases hpf : a.pass_file with
    | some y => exact Or.inr (by simp [hpf])
    | none =>
      rw [hp, hpf] at h
      simp at h

/-- Claim C6: in an account+passphrase handshake that requested a token
(no inline token, configured but absent token file, account name and
passphrase resolvable), when the server's Ok reply carries a Tkn value,
authenticate writes that token as the sole content of the token file
(overwriting whatever was there), returns the token, and propagates a
file-creation failure as an error instead. -/
theorem tokenPersistedOnIssue (a : Auth) (f acc pw tkn : String)
    (fs : FileSys) (ps : ParamsMap) (rest : List Frame)
    (ht : a.token = Option.none) (htf : a.token_file = some f)
    (hex : fs.files f = Option.none) (hname : a.name = some acc)
    (hpass : a.get_pass fs = Except.ok pw)
    (htk : lookupParam ps "Tkn" = some tkn) :
    (fs.writable f = true →
      a.authenticate fs (okTelegram ps :: rest) =
        (Except.ok (some tkn),
         [{ topic := some "Auth",
            params := [("AccName", acc), ("Pass", pw), ("ReqTkn", "True")] }],
         writeSingleLine fs f tkn)
      ∧ (writeSingleLine fs f tkn).files f = some [Except.ok tkn])
    ∧ (fs.writable f = false →
      (a.authenticate fs (okTelegram ps :: rest)).1 =
        Except.error (Error.ioError "failed to create token file")
      ∧ (a.authenticate fs (okTelegram ps :: rest)).2.2 = fs) := by
  have hsome := getPass_ok_source a fs pw hpass
  have hg : a.get_token fs = Except.ok Option.none := by
    cases hpv : a.pass with
    | some x => simp [Auth.get_token, ht, htf, hex, hname, hpv]
    | none =>
      cases hpfv : a.pass_file with
      | some y => simp [Auth.get_token, ht, htf, hex, hname, hpv, hpfv]
      | none =>
        rw [hpv, hpfv] at hsome
        simp at hsome
  constructor
  · intro hw
    constructor
    · unfold Auth.authenticate
      rw [hg, hname, hpass]
      unfold accpass resolvePassCred
      simp [okTelegram, expectOkfail, htf, htk, hw]
    · simp [writeSingleLine]
  · intro hw
    constructor <;>
      (unfold Auth.authenticate
       rw [hg, hname, hpass]
       unfold accpass resolvePassCred
       simp [okTelegram, expectOkfail, htf, htk, hw])

/-- Witness for tokenPersistedOnIssue: the mock-server scenario with token
ABC123; the token file afterwards holds exactly the line ABC123, and with
an unwritable path the same handshake surfaces the write error. -/
theorem tokenPersistedOnIssue_witness :
    (mkAuth (some "acc") Option.none (some "pw") (some "tf")
        Option.none).authenticate fsEmpty [okTelegram [("Tkn", "ABC123")]] =
      (Except.ok (some "ABC123"),
       [{ topic := some "Auth",
          params := [("AccName", "acc"), ("Pass", "pw"),
                     ("ReqTkn", "True")] }],
       writeSingleLine fsEmpty "tf" "ABC123")
    ∧ (writeSingleLine fsEmpty "tf" "ABC123").files "tf" =
        some [Except.ok "ABC123"]
    ∧ ((mkAuth (some "acc") Option.none (some "pw") (some "tf")
        Option.none).authenticate (fsWithRO "x" [])
        [okTelegram [("Tkn", "ABC123")]]).1 =
        Except.error (Error.ioError "failed to create token file") :=
  ⟨((tokenPersistedOnIssue
      (mkAuth (some "acc") Option.none (some "pw") (some "tf") Option.none)
      "tf" "acc" "pw" "ABC123" fsEmpty [("Tkn", "ABC123")] []
      rfl rfl rfl rfl rfl (by simp [lookupParam])).1 rfl).1,
   ((tokenPersistedOnIssue
      (mkAuth (some "acc") Option.none (some "pw") (some "tf") Option.none)
      "tf" "acc" "pw" "ABC123" fsEmpty [("Tkn", "ABC123")] []
      rfl rfl rfl rfl rfl (by simp [lookupParam])).1 rfl).2,
   ((tokenPersistedOnIssue
      (mkAuth (some "acc") Option.none (some "pw") (some "tf") Option.none)
      "tf" "acc" "pw" "ABC123" (fsWithRO "x" []) [("Tkn", "ABC123")] []
      rfl rfl (by simp [fsWithRO]) rfl rfl
      (by simp [lookupParam])).2 (by simp [fsWithRO])).1⟩

/-- Claim C5: for a transfer descriptor with neither metadata nor payload,
send performs exactly one control request/reply exchange (one telegram
sent, one reply consumed), transmits no content frames, and returns the
transfer identifier carried by the Ok reply. -/
theorem emptyTransferSingleExchange (fs : SizeFS) (ch : AppChannel)
    (cmd : Nat) (ps : ParamsMap) (rest : List Frame) (xid : String)
    (hx : lookupParam ps "XferId" = some xid) :
    send fs ch { cmd := cmd, meta := Option.none, payload := Option.none }
      (okTelegram ps :: rest) =
      (Except.ok xid, [SentItem.telegram (mkMsgTelegram ch cmd 0 0)],
       rest) := by
  simp [send, MsgInfo.get_meta_size, MsgInfo.get_payload_size, sendSection,
    okTelegram, expectOkfail, hx]

/-- Witness for emptyTransferSingleExchange: command 17 and server reply
XferId X1. -/
theorem emptyTransferSingleExchange_witness :
    send (fun _ => Option.none) (AppChannel.num 1)
      { cmd := 17, meta := Option.none, payload := Option.none }
      [okTelegram [("XferId", "X1")]] =
      (Except.ok "X1",
       [SentItem.telegram (mkMsgTelegram (AppChannel.num 1) 17 0 0)], []) :=
  emptyTransferSingleExchange (fun _ => Option.none) (AppChannel.num 1) 17
    [("XferId", "X1")] [] "X1" (by simp [lookupParam])

/-- Claim C7: when the control exchange's Ok reply carries no XferId,
send returns the MissingData error (a protocol violation, not a server
failure) and transmits nothing beyond the control telegram. -/
theorem missingXferIdProtocolViolation (fs : SizeFS) (ch : AppChannel)
    (mi : MsgInfo) (ml pl : Nat) (ps : ParamsMap) (rest : List Frame)
    (hm : mi.get_meta_size fs = Except.ok ml)
    (hp : mi.get_payload_size fs = Except.ok pl)
    (hx : lookupParam ps "XferId" = Option.none) :
    send fs ch mi (okTelegram ps :: rest) =
      (Except.error (Error.MissingData
        "Missing expected transfer identifier from server reply"),
       [SentItem.telegram (mkMsgTelegram ch mi.cmd ml pl)], rest) := by
  unfold send
  rw [hm, hp]
  simp [okTelegram, expectOkfail, hx]

/-- Witness for missingXferIdProtocolViolation: an Ok reply without any
parameters, for a transfer carrying both sections. -/
theorem missingXferIdProtocolViolation_witness :
    send (fun _ => Option.none) (AppChannel.name "ch")
      { cmd := 0, meta := some (InputType.vecBuf [1, 2]),
        payload := some (InputType.bytes [3]) }
      [okTelegram []] =
      (Except.error (Error.MissingData
        "Missing expected transfer identifier from server reply"),
       [SentItem.telegram (mkMsgTelegram (AppChannel.name "ch") 0 2 1)],
       []) :=
  missingXferIdProtocolViolation (fun _ => Option.none)
    (AppChannel.name "ch")
    { cmd := 0, meta := some (InputType.vecBuf [1, 2]),
      payload := some (InputType.bytes [3]) }
    2 1 [] [] rfl rfl rfl

/-- Claim C2: for a transfer with both metadata and payload, when the
acknowledgement following the metadata content frame is any failure
(server Fail, protocol violation, or disconnection), send returns that
error and the transcript ends with the metadata content frame - the
payload is never transmitted. -/
theorem metaAckFailureAbortsPayload (fs : SizeFS) (ch : AppChannel)
    (mi : MsgInfo) (m p fr : InputType) (ml pl : Nat)
    (ps : ParamsMap) (xid : String) (tail : List Frame) (e : Error)
    (hmeta : mi.meta = some m) (hpay : mi.payload = some p)
    (hm : mi.get_meta_size fs = Except.ok ml)
    (hp : mi.get_payload_size fs = Except.ok pl)
    (hsc : sendContentFrame fs m = Except.ok fr)
    (hx : lookupParam ps "XferId" = some xid)
    (hack : (expectOkfail tail).1 = Except.error e) :
    send fs ch mi (okTelegram ps :: tail) =
      (Except.error e,
       [SentItem.telegram (mkMsgTelegram ch mi.cmd ml pl),
        SentItem.content fr],
       (expectOkfail tail).2) := by
  unfold send
  rw [hm, hp]
  have h1 : expectOkfail (okTelegram ps :: tail) = (Except.ok ps, tail) := by
    simp [okTelegram, expectOkfail]
  rw [h1]
  rcases hET : expectOkfail tail with ⟨r, tl⟩
  rw [hET] at hack
  simp only at hack
  subst hack
  simp [hx, hmeta, sendSection, hsc, hET]

/-- Witness for metaAckFailureAbortsPayload: the metadata acknowledgement
is a server Fail; the transcript holds the control telegram and the
metadata frame only. -/
theorem metaAckFailureAbortsPayload_witness :
    send (fun _ => Option.none) (AppChannel.num 2)
      { cmd := 0, meta := some (InputType.vecBuf [1]),
        payload := some (InputType.vecBuf [2]) }
      [okTelegram [("XferId", "X1")], failTelegram [("Err", "quota")]] =
      (Except.error (Error.ServerError [("Err", "quota")]),
       [SentItem.telegram (mkMsgTelegram (AppChannel.num 2) 0 1 1),
        SentItem.content (InputType.vecBuf [1])], []) :=
  metaAckFailureAbortsPayload (fun _ => Option.none) (AppChannel.num 2)
    { cmd := 0, meta := some (InputType.vecBuf [1]),
      payload := some (InputType.vecBuf [2]) }
    (InputType.vecBuf [1]) (InputType.vecBuf [2]) (InputType.vecBuf [1])
    1 1 [("XferId", "X1")] "X1" [failTelegram [("Err", "quota")]]
    (Error.ServerError [("Err", "quota")])
    rfl rfl rfl rfl rfl (by simp [lookupParam])
    (by simp [failTelegram, expectOkfail])

/-- Claim C9: get_meta_size never rejects an oversize metadata length -
whenever the content's size computation succeeds, the declared metadata
length is the size truncated modulo 2^32 (the source's oversize check has
an empty body). -/
theorem metaOversizeTruncated (fs : SizeFS) (m : InputType) (cmd : Nat)
    (pl : Option InputType) (sz : Nat)
    (h : m.get_size fs = Except.ok sz) :
    ({ cmd := cmd, meta := some m, payload := pl } : MsgInfo).get_meta_size
      fs = Except.ok (sz % 2 ^ 32) := by
  simp [MsgInfo.get_meta_size, h]

/-- Witness for metaOversizeTruncated: a metadata file of size 2^32 + 5 -
strictly above u32::MAX - produces no error and a declared length of 5. -/
theorem metaOversizeTruncated_witness :
    ({ cmd := 0, meta := some (InputType.file "big"),
       payload := Option.none } : MsgInfo).get_meta_size
      (fun q => if q = "big" then some (2 ^ 32 + 5) else Option.none) =
      Except.ok 5
    ∧ 2 ^ 32 + 5 > 4294967295 := by
  constructor
  · have h := metaOversizeTruncated
      (fun q => if q = "big" then some (2 ^ 32 + 5) else Option.none)
      (InputType.file "big") 0 Option.none (2 ^ 32 + 5)
      (by simp [InputType.get_size])
    rw [h]
    norm_num
  · norm_num

/-- Whether a loop outcome is a success. -/
def loopIsOk : Except Error Unit → Bool
  | Except.ok _ => true
  | Except.error _ => false

/-- Claim C8: the kill = None reception loop never returns Ok - on every
finite inbound stream it ends in an error from recv or from the
processing callback - and a closed connection (exhausted stream) surfaces
as the Disconnected error, not as a clean exit. -/
theorem recvloopNeverOk
    (storeq : RecvMsgInfo → Except Error (StoreType × StoreType))
    (procmsg : Msg → Except Error Unit) (frames : List Frame) :
    loopIsOk (recvloopNoKill storeq procmsg frames) = false
    ∧ recvloopNoKill storeq procmsg [] = Except.error Error.Disconnected := by
  have main : ∀ (n : Nat) (fr : List Frame), fr.length ≤ n →
      loopIsOk (recvloopNoKill storeq procmsg fr) = false := by
    intro n
    induction n with
    | zero =>
      intro fr hlen
      have hnil : fr = [] := List.length_eq_zero.mp (Nat.le_zero.mp hlen)
      subst hnil
      unfold recvloopNoKill
      simp [recv, loopIsOk]
    | succ n ih =>
      intro fr hlen
      unfold recvloopNoKill
      split
      · simp [loopIsOk]
      · rename_i m rest hr
        split
        · simp [loopIsOk]
        · have hlt := recv_length hr
          exact ih rest (by omega)
  refine ⟨main frames.length frames Nat.le.refl, ?_⟩
  unfold recvloopNoKill
  simp [recv]

/-- The frame the blather codec yields after being configured for the
given storage request (content abstracted to its emptiest form): a skip
request completes as skipDone, the others as their content frame kind. -/
def mkFrame : StoreType → Frame
  | StoreType.none => Frame.skipDone
  | StoreType.bytes => Frame.bytes []
  | StoreType.bytesMut => Frame.bytesMut []
  | StoreType.params => Frame.paramsIn []
  | StoreType.kvLines => Frame.kvlines []
  | StoreType.file p => Frame.file p

/-- The section result get_content produces for the conforming frame of a
given storage request: `none` for a discard request, the matching Storage
variant otherwise. -/
def mkStorage : StoreType → Option Storage
  | StoreType.none => Option.none
  | StoreType.bytes => some (Storage.bytes [])
  | StoreType.bytesMut => some (Storage.bytesMut [])
  | StoreType.params => some (Storage.params [])
  | StoreType.kvLines => some (Storage.kvlines [])
  | StoreType.file p => some (Storage.file p)

/-- get_content on a conforming frame yields the request's storage
result. -/
theorem getContent_mkFrame (st : StoreType) (rest : List Frame) :
    getContent (mkFrame st :: rest) = Except.ok (mkStorage st, rest) := by
  cases st <;> rfl

/-- Counterexample to claim C1: a Msg telegram declaring a non-zero
payload length (Len=5) and no metadata, with a callback requesting
in-memory storage for both sections, is processed by recv into a Msg
whose payload Storage Result is None - the claim requires Some for every
non-zero declared length.  (The source keeps a payload request only when
the METADATA length is non-zero, src/msg/recv.rs line 436.) -/
theorem sectionResultCounterexample :
    payloadLenOf [("Len", "5")] = Except.ok 5
    ∧ recv (fun _ => Except.ok (StoreType.bytes, StoreType.bytes))
        [Frame.telegram { topic := some "Msg", params := [("Len", "5")] }] =
      Except.ok ({ cmd := 0, meta := Option.none,
                   payload := Option.none }, []) := by
  constructor
  · rfl
  · rfl

/-- Claim C1 as amended to match the code: with a callback requesting
kinds mt and pt, a section's Storage Result is Some if and only if the
declared METADATA length is non-zero and the request for that section is
not the discard kind.  In particular, when the metadata length is zero
both results are None regardless of the declared payload length, and when
the metadata length is non-zero each section consumes one conforming
frame and a discard request still yields None. -/
theorem sectionResultsGatedOnMetaLen (mt pt : StoreType) (mp : ParamsMap)
    (metalen payloadlen cmd : Nat) (rest : List Frame)
    (hm : metaLenOf mp = Except.ok metalen)
    (hp : payloadLenOf mp = Except.ok payloadlen)
    (hc : cmdOf mp = Except.ok cmd) :
    (metalen = 0 →
      procInboundMsg (fun _ => Except.ok (mt, pt)) mp rest =
        Except.ok ({ cmd := cmd, meta := Option.none,
                     payload := Option.none }, rest))
    ∧ (metalen ≠ 0 →
      procInboundMsg (fun _ => Except.ok (mt, pt)) mp
          (mkFrame mt :: mkFrame pt :: rest) =
        Except.ok ({ cmd := cmd, meta := mkStorage mt,
                     payload := mkStorage pt }, rest))
    ∧ ((mkStorage mt).isSome = true ↔ mt ≠ StoreType.none) := by
  refine ⟨?_, ?_, ?_⟩
  · intro hmet
    subst hmet
    by_cases hpl : payloadlen = 0 <;>
      simp [procInboundMsg, hm, hp, hc, hpl, readSection]
  · intro hmet
    unfold procInboundMsg
    rw [hm, hp, hc]
    simp [hmet, readSection, getContent_mkFrame]
  · cases mt <;> simp [mkStorage]

/-- Witness for sectionResultsGatedOnMetaLen: MetaLen=3 with a discard
request for metadata and a bytes request for payload - the metadata
result is None despite its non-zero length, the payload result is the
bytes buffer. -/
theorem sectionResultsGatedOnMetaLen_witness :
    procInboundMsg (fun _ => Except.ok (StoreType.none, StoreType.bytes))
      [("MetaLen", "3"), ("Len", "5")]
      [Frame.skipDone, Frame.bytes []] =
    Except.ok ({ cmd := 0, meta := Option.none,
                 payload := some (Storage.bytes []) }, []) :=
  (sectionResultsGatedOnMetaLen StoreType.none StoreType.bytes
    [("MetaLen", "3"), ("Len", "5")] 3 5 0 [] rfl rfl rfl).2.1
    (by decide)
